import Mathlib

/-!
Verification of the connection-and-protocol core of the `fluvalble`
integration (`custom_components/fluvalble/core/client.py` and
`custom_components/fluvalble/core/device.py`), shallowly embedded as
executable Lean definitions.

Modelling conventions: wire bytes (`bytes`/`bytearray`) become `List Nat`
(each element 0‥255 on the wire), Python dicts become association lists
with prepend-on-update semantics, timestamps become `Nat`, and a Python
function that can raise is given an `Except` result type.
-/

namespace Encryption

/-- Modelled from the spec: the module `core/encryption.py` is imported by
`client.py` but absent from the sources.  Spec §4.1 describes `add_crc` as
appending a checksum trailer to the plaintext; the checksum is modelled as
one trailing byte, the byte sum of the payload modulo 256. -/
def add_crc (data : List Nat) : List Nat :=
  data ++ [data.sum % 256]

/-- Modelled from the spec: the fixed key material embedded in the
implementation (spec §4.1); the concrete byte values are not given by the
spec and are irrelevant to every claim. -/
def KEY : List Nat := [23, 42, 92, 63]

/-- Modelled from the spec: the reversible symmetric transform of §4.1,
applied bytewise with the fixed key material cycled over the buffer
(xor with the key byte; xor is its own inverse, so the same transform is
both directions of the symmetric cipher). -/
def transformFrom (i : Nat) : List Nat → List Nat
  | [] => []
  | b :: rest => (b ^^^ KEY.getD (i % KEY.length) 0) :: transformFrom (i + 1) rest

/-- Modelled from the spec: `encryption.encrypt`, the symmetric transform. -/
def encrypt (data : List Nat) : List Nat := transformFrom 0 data

/-- Modelled from the spec: `encryption.decrypt`, the exact inverse
transform (identical to `encrypt` because the xor transform is an
involution). -/
def decrypt (data : List Nat) : List Nat := transformFrom 0 data

end Encryption

/-- `ACTIVE_TIME` (client.py line 16): seconds the poll loop stays alive
after the most recent `ping`. -/
def ACTIVE_TIME : Nat := 120

/-- `COMMAND_TIME` (client.py line 17): expiry window of a pending command. -/
def COMMAND_TIME : Nat := 15

/-- `PING_INTERVAL` (client.py line 18). -/
def PING_INTERVAL : Nat := 10

/-- Characteristic UUIDs (client.py lines 21-24). -/
def CHAR_NOTIFY : String := "00001002-0000-1000-8000-00805F9B34FB"

def CHAR_KEEPALIVE : String := "00001004-0000-1000-8000-00805F9B34FB"

def CHAR_COMMAND_OUT : String := "00001001-0000-1000-8000-00805F9B34FB"

def CHAR_COMMAND_IO : String := "00001002-0000-1000-8000-00805F9B34FB"

namespace Client

/-- `client.encrypt` (client.py lines 244-247): append the checksum, then
apply the symmetric transform. -/
def encrypt (data : List Nat) : List Nat :=
  Encryption.encrypt (Encryption.add_crc data)

/-- `client.decrypt` (client.py lines 250-252): the inverse transform only;
no checksum handling. -/
def decrypt (data : List Nat) : List Nat :=
  Encryption.decrypt data

end Client

/-- Core of `Client.notify_callback` after decryption (client.py lines
102-112): a decrypted fragment of exactly 17 bytes is appended to the
reassembly buffer with no delivery; a fragment of any other length is
appended, the concatenation is delivered to the update callback, and the
buffer is reset to empty.  Returns the new buffer and the delivered
payload, if any. -/
def notifyStep (buffer decrypted : List Nat) : List Nat × Option (List Nat) :=
  if decrypted.length = 17 then (buffer ++ decrypted, none)
  else ([], some (buffer ++ decrypted))

/-- `Client.notify_callback` (client.py lines 100-112) on raw notification
data: decrypt, then run the reassembly step. -/
def Client.notify_callback (buffer data : List Nat) : List Nat × Option (List Nat) :=
  notifyStep buffer (Client.decrypt data)

/-- Folds `notifyStep` over a sequence of decrypted fragments, collecting
the payloads delivered to the update callback in arrival order. -/
def runNotify (buffer : List Nat) : List (List Nat) → List Nat × List (List Nat)
  | [] => (buffer, [])
  | f :: rest =>
    let step := notifyStep buffer f
    let next := runNotify step.1 rest
    (next.1, step.2.toList ++ next.2)

/-- The mutable fields of `Client` touched by `send`, `ping` and the
command-dispatch part of the ping loop (client.py lines 44-52). -/
structure ClientState where
  send_data : Option (List Nat)
  send_time : Nat
  ping_time : Nat
  receive_buffer : List Nat
  deriving DecidableEq, Repr

/-- The state set up by `Client.__init__` (client.py lines 30-52). -/
def Client.initState : ClientState :=
  { send_data := none, send_time := 0, ping_time := 0, receive_buffer := [] }

/-- `Client.ping` (client.py lines 58-63): extends the keep-alive window to
`now + ACTIVE_TIME` (the task bookkeeping has no further state). -/
def Client.ping (now : Nat) (st : ClientState) : ClientState :=
  { st with ping_time := now + ACTIVE_TIME }

/-- `Client.send` (client.py lines 65-72): installs the payload as the
pending command with expiry `now + COMMAND_TIME`, then pings.  The
cancellation of the idle-wait future carries no modelled state. -/
def Client.send (now : Nat) (st : ClientState) (data : List Nat) : ClientState :=
  Client.ping now { st with send_time := now + COMMAND_TIME, send_data := some data }

/-- The command-dispatch step of one `_ping_loop` tick (client.py lines
179-186): if a pending command exists (a non-empty buffer — Python tests
`self.send_data` for truthiness) and has not expired, its encryption is
written to the command characteristic; the pending command is cleared in
every case.  Returns the new state and the wire bytes written, if any. -/
def Client.tickCommand (now : Nat) (st : ClientState) : ClientState × Option (List Nat) :=
  let out : Option (List Nat) :=
    match st.send_data with
    | some d => if d ≠ [] ∧ now < st.send_time then some (Client.encrypt d) else none
    | none => none
  ({ st with send_data := none }, out)

/-- One GATT-transport action performed by the client, as observable by the
transport and the status callback. -/
inductive BleAction where
  | establishConnection
  | startNotify (char : String)
  | statusReport (connected : Bool)
  | readChar (char : String)
  | writeChar (char : String) (data : List Nat) (response : Bool)
  deriving DecidableEq, Repr

/-- The transport and callback actions of the success path of
`Client._connect` (client.py lines 118-138), in program order. -/
def connectTrace : List BleAction :=
  [ .establishConnection,
    .startNotify CHAR_NOTIFY,
    .statusReport true,
    .readChar CHAR_KEEPALIVE,
    .writeChar CHAR_COMMAND_OUT (Client.encrypt [0x68, 0x05]) false ]

/-- The transport and callback actions of the reconnect branch of
`Client._ping_loop` (client.py lines 158-173), in program order. -/
def reconnectTrace : List BleAction :=
  [ .establishConnection,
    .startNotify CHAR_NOTIFY,
    .statusReport true,
    .readChar CHAR_KEEPALIVE,
    .writeChar CHAR_COMMAND_OUT (Client.encrypt [0x68, 0x05]) false ]

/-- The ordering property claimed of every connect sequence (stated from
the claim's words, to be compared with the traces transcribed from the
source): each `connected = true` report happens only after both the
pre-flight keep-alive read and the initial request-state write. -/
def statusOnlyAfterHandshake (tr : List BleAction) : Prop :=
  ∀ i, tr.get? i = some (.statusReport true) →
    (∃ j, j < i ∧ tr.get? j = some (.readChar CHAR_KEEPALIVE)) ∧
    (∃ k, k < i ∧
      tr.get? k = some (.writeChar CHAR_COMMAND_OUT (Client.encrypt [0x68, 0x05]) false))

/-- The ordering that actually holds on a trace: each `connected = true`
report happens after the notification subscription and before the
pre-flight keep-alive read. -/
def statusAfterSubscribe (tr : List BleAction) : Prop :=
  ∀ i, tr.get? i = some (.statusReport true) →
    (∃ j, j < i ∧ tr.get? j = some (.startNotify CHAR_NOTIFY)) ∧
    (∃ k, i < k ∧ tr.get? k = some (.readChar CHAR_KEEPALIVE))

/-- A value stored in the Python `values` dict of a `Device`: channel
levels are integers, the mode is a string, the LED flag a boolean. -/
inductive Val where
  | n (v : Nat)
  | s (v : String)
  | b (v : Bool)
  deriving DecidableEq, Repr

/-- Python dict lookup `d[k]` modelled totally: the most recent binding of
the key, or `none` when the key is absent (a `KeyError` at a caller). -/
def dictGet (d : List (String × Val)) (k : String) : Option Val :=
  match d with
  | [] => none
  | p :: rest => if p.1 = k then some p.2 else dictGet rest k

/-- Python dict assignment `d[k] = v`, modelled by prepending the binding
(lookups see the newest binding first). -/
def dictSet (d : List (String × Val)) (k : String) (v : Val) : List (String × Val) :=
  (k, v) :: d

/-- `NUMBERS` (device.py line 15). -/
def NUMBERS : List String :=
  ["channel_1", "channel_2", "channel_3", "channel_4", "channel_5"]

/-- `MODES` (device.py line 17). -/
def MODES : List String := ["manual", "automatic", "professional"]

/-- Python `str.startswith`. -/
def strStartsWith (s p : String) : Bool :=
  p.data.isPrefixOf s.data

/-- The `Attribute` TypedDict (device.py lines 20-32); every field is
optional and absent by default. -/
structure Attribute where
  options : Option (List String) := none
  default : Option Val := none
  min : Option Nat := none
  max : Option Nat := none
  step : Option Nat := none
  value : Option Val := none
  is_on : Option Val := none
  extra : Option (List (String × Val)) := none
  deriving DecidableEq, Repr

/-- The state of a `Device` (device.py lines 38-56): connectivity flag,
connection metadata and the `values` dict.  The advertisement metadata
refresh (`last_seen` datetime, rssi) is kept as opaque dict entries. -/
structure DeviceState where
  connected : Bool
  conn_info : List (String × Val)
  values : List (String × Val)
  deriving DecidableEq, Repr

/-- `Device.__init__` (device.py lines 38-56): connectivity false, the MAC
recorded in `conn_info`, channels 1-5 at 0, mode `"manual"`, LED off. -/
def Device.init (mac : String) : DeviceState :=
  { connected := false
    conn_info := [("mac", .s mac)]
    values :=
      dictSet (dictSet (dictSet (dictSet (dictSet (dictSet (dictSet []
        "channel_1" (.n 0)) "channel_2" (.n 0)) "channel_3" (.n 0))
        "channel_4" (.n 0)) "channel_5" (.n 0)) "mode" (.s "manual"))
        "led_on_off" (.b false) }

/-- `Device.attribute` (device.py lines 106-115).  A Python `KeyError`
raised by a `values` lookup is modelled as `Except.error ()`; falling off
the end of the Python function returns `None`, modelled as
`Except.ok none`. -/
def Device.attribute (st : DeviceState) (attr : String) : Except Unit (Option Attribute) :=
  if attr = "connection" then
    .ok (some { is_on := some (.b st.connected), extra := some st.conn_info })
  else if strStartsWith attr "channel_" then
    match dictGet st.values attr with
    | some v => .ok (some { min := some 0, max := some 1000, step := some 50, value := some v })
    | none => .error ()
  else if attr = "mode" then
    match dictGet st.values attr with
    | some v => .ok (some { options := some MODES, default := some v })
    | none => .error ()
  else if attr = "led_on_off" then
    match dictGet st.values attr with
    | some v => .ok (some { is_on := some v })
    | none => .error ()
  else
    .ok none

/-- `Device.select_option` (device.py lines 138-145): stores the option in
the `values` dict unconditionally, then sends a set-mode command only when
the attribute is `"mode"` and the option is a member of `MODES`.  Returns
the new state and the plaintext command handed to `Client.send`, if any. -/
def Device.select_option (st : DeviceState) (attr option : String) :
    DeviceState × Option (List Nat) :=
  let st := { st with values := dictSet st.values attr (.s option) }
  if attr = "mode" ∧ option ∈ MODES then
    (st, some [0x68, 0x02, MODES.findIdx (fun m => m == option)])
  else
    (st, none)

/-- `Device.decode_update_packet` (device.py lines 155-192): payloads
shorter than 13 bytes are rejected with the state unchanged; byte 2 picks
the mode by exact match on 0/1/2 (otherwise the mode is unchanged); byte 3
sets the LED flag by positivity; when the resulting mode is `"manual"`,
bytes 5‥12 are decoded as four little-endian 16-bit channel values,
otherwise channels 1-4 are forced to zero.  Returns the updated state and
whether the component update handlers were fired. -/
def Device.decode_update_packet (st : DeviceState) (data : List Nat) :
    DeviceState × Bool :=
  if data.length < 13 then (st, false)
  else
    let v1 :=
      if data.getD 2 0 = 0x00 then dictSet st.values "mode" (.s (MODES.getD 0 ""))
      else if data.getD 2 0 = 0x01 then dictSet st.values "mode" (.s (MODES.getD 1 ""))
      else if data.getD 2 0 = 0x02 then dictSet st.values "mode" (.s (MODES.getD 2 ""))
      else st.values
    let v2 := dictSet v1 "led_on_off" (.b (decide (0x00 < data.getD 3 0)))
    let v3 :=
      if dictGet v2 "mode" = some (.s "manual") then
        dictSet (dictSet (dictSet (dictSet v2
          "channel_1" (.n ((data.getD 6 0 <<< 8) ||| (data.getD 5 0 &&& 0xFF))))
          "channel_2" (.n ((data.getD 8 0 <<< 8) ||| (data.getD 7 0 &&& 0xFF))))
          "channel_3" (.n ((data.getD 10 0 <<< 8) ||| (data.getD 9 0 &&& 0xFF))))
          "channel_4" (.n ((data.getD 12 0 <<< 8) ||| (data.getD 11 0 &&& 0xFF)))
      else
        dictSet (dictSet (dictSet (dictSet v2
          "channel_1" (.n 0)) "channel_2" (.n 0)) "channel_3" (.n 0)) "channel_4" (.n 0)
    ({ st with values := v3 }, true)

/-! ### Helper lemmas -/

theorem Encryption.transformFrom_involution (l : List Nat) (i : Nat) :
    Encryption.transformFrom i (Encryption.transformFrom i l) = l := by
  induction l generalizing i with
  | nil => rfl
  | cons b rest ih =>
    simp [Encryption.transformFrom, Nat.xor_assoc, Nat.xor_self, Nat.xor_zero, ih]

theorem runNotify_accum (frags : List (List Nat)) (buffer last : List Nat)
    (hf : ∀ f ∈ frags, f.length = 17) (hl : last.length ≠ 17) :
    runNotify buffer (frags ++ [last]) = ([], [buffer ++ frags.flatten ++ last]) := by
  induction frags generalizing buffer with
  | nil => simp [runNotify, notifyStep, hl]
  | cons f fs ih =>
    have hf17 : f.length = 17 := hf f (by simp)
    have hrest : ∀ g ∈ fs, g.length = 17 := fun g hg => hf g (by simp [hg])
    simp only [List.cons_append, runNotify, notifyStep, hf17, if_pos, ite_true,
      Option.toList_none, List.nil_append, List.append_eq]
    rw [ih (buffer ++ f) hrest]
    simp [List.append_assoc]

theorem runNotify_length_mod (frags : List (List Nat)) (buffer : List Nat)
    (hb : buffer.length % 17 = 0) :
    (runNotify buffer frags).1.length % 17 = 0 := by
  induction frags generalizing buffer with
  | nil => simpa [runNotify] using hb
  | cons f fs ih =>
    by_cases h17 : f.length = 17
    · have hb2 : (buffer ++ f).length % 17 = 0 := by
        simp [h17]
        omega
      simpa [runNotify, notifyStep, h17] using ih (buffer ++ f) hb2
    · simpa [runNotify, notifyStep, h17] using ih [] (by simp)

theorem dictGet_dictSet_same (d : List (String × Val)) (k : String) (v : Val) :
    dictGet (dictSet d k v) k = some v := by
  simp [dictGet, dictSet]

theorem dictGet_dictSet_ne (d : List (String × Val)) (k k2 : String) (v : Val)
    (h : k ≠ k2) : dictGet (dictSet d k v) k2 = dictGet d k2 := by
  simp [dictGet, dictSet, h]

/-! ### Claims -/

/-- C1 (counterexample): the claim `decode(encode(p)) = p` fails already at
the empty plaintext — `decode` is the exact inverse of the symmetric
transform only, so the checksum trailer appended by `encode` survives the
round trip and the result is one byte longer than the input. -/
theorem c1_roundtrip_counterexample :
    Client.decrypt (Client.encrypt []) ≠ ([] : List Nat) := by decide

/-- C1 (amended): for every byte sequence `p`, `decode(encode(p))`
reproduces the checksummed buffer `add_crc p` — that is, `p` followed by
the checksum trailer — so the original plaintext is recovered as the first
`p.length` bytes, not as the whole result. -/
theorem c1_roundtrip_amended (p : List Nat) :
    Client.decrypt (Client.encrypt p) = Encryption.add_crc p ∧
    (Client.decrypt (Client.encrypt p)).take p.length = p := by
  have h : Client.decrypt (Client.encrypt p) = Encryption.add_crc p :=
    Encryption.transformFrom_involution (Encryption.add_crc p) 0
  refine ⟨h, ?_⟩
  rw [h]
  unfold Encryption.add_crc
  exact List.take_left ..

/-- C3: for every fragment sequence in which all but the last fragment have
decrypted length exactly 17 and the last has any other length, starting
from the empty reassembly buffer the notification handler delivers exactly
one payload, equal to the concatenation of all fragments in arrival order,
and leaves the buffer empty. -/
theorem c3_reassembly (frags : List (List Nat)) (last : List Nat)
    (hf : ∀ f ∈ frags, f.length = 17) (hl : last.length ≠ 17) :
    runNotify [] (frags ++ [last]) = ([], [frags.flatten ++ last]) := by
  simpa using runNotify_accum frags [] last hf hl

/-- C3 witness: one 17-byte fragment followed by a 1-byte fragment delivers
exactly their concatenation and resets the buffer. -/
theorem c3_reassembly_witness :
    runNotify [] ([List.replicate 17 0] ++ [[1]]) =
      ([], [[List.replicate 17 0].flatten ++ [1]]) :=
  c3_reassembly [List.replicate 17 0] [1] (by simp) (by decide)

/-- C10: starting from the empty reassembly buffer, the buffer length after
any sequence of handler invocations is a multiple of 17; an invocation on a
17-byte decrypted fragment grows the buffer by exactly 17 bytes, and an
invocation on a fragment of any other length always leaves the buffer
empty. -/
theorem c10_buffer_invariant :
    (∀ frags, (runNotify [] frags).1.length % 17 = 0) ∧
    (∀ buffer f, f.length = 17 →
      (notifyStep buffer f).1.length = buffer.length + 17) ∧
    (∀ buffer f, f.length ≠ 17 → (notifyStep buffer f).1 = []) := by
  refine ⟨fun frags => runNotify_length_mod frags [] (by simp), ?_, ?_⟩
  · intro buffer f h17
    simp [notifyStep, h17]
  · intro buffer f h17
    simp [notifyStep, h17]

/-- C10 witness: a 17-byte fragment grows a 1-byte buffer to 18 bytes, and
a 1-byte fragment empties it. -/
theorem c10_buffer_invariant_witness :
    (notifyStep [5] (List.replicate 17 2)).1.length = [5].length + 17 ∧
    (notifyStep [5] [9]).1 = [] :=
  ⟨c10_buffer_invariant.2.1 [5] (List.replicate 17 2) (by simp),
   c10_buffer_invariant.2.2 [5] [9] (by decide)⟩

/-- C7: every payload shorter than 13 bytes (the empty payload included) is
rejected by `decode_update_packet`: the device state is returned unchanged
and the component update handlers are not fired. -/
theorem c7_short_packet (st : DeviceState) (data : List Nat)
    (h : data.length < 13) :
    Device.decode_update_packet st data = (st, false) := by
  unfold Device.decode_update_packet
  rw [if_pos h]

/-- C7 witness: the empty payload leaves the freshly initialised device
untouched and fires nothing. -/
theorem c7_short_packet_witness :
    Device.decode_update_packet (Device.init "00") [] = (Device.init "00", false) :=
  c7_short_packet (Device.init "00") [] (by decide)

/-- C9 (counterexample): the claim quantifies over every pair of payloads,
but an empty payload `B = b""` is falsy in the ping loop's
`if self.send_data and ...` test, so after `send(A)` then `send(b"")` the
next tick transmits nothing at all instead of exactly one command. -/
theorem c9_coalescing_counterexample :
    (Client.tickCommand 1 (Client.send 0 (Client.send 0 Client.initState [1]) [])).2
      = none := by decide

/-- C9 (amended): for every two calls `send(A)` then `send(B)` with `B`
non-empty issued before the next tick, that tick transmits exactly one
command, the encryption of `B` (last-write-wins), provided the command has
not expired, and the pending slot is cleared afterwards. -/
theorem c9_coalescing_amended (st : ClientState) (A B : List Nat)
    (t0 t1 t2 : Nat) (hB : B ≠ []) (ht : t2 < t1 + COMMAND_TIME) :
    (Client.tickCommand t2 (Client.send t1 (Client.send t0 st A) B)).2
        = some (Client.encrypt B) ∧
    (Client.tickCommand t2 (Client.send t1 (Client.send t0 st A) B)).1.send_data
        = none := by
  simp [Client.tickCommand, Client.send, Client.ping, hB, ht]

/-- C9 witness: `send([1])` then `send([2])` at time 0 makes the tick at
time 0 write exactly `encrypt [2]` and clear the pending command. -/
theorem c9_coalescing_amended_witness :
    (Client.tickCommand 0 (Client.send 0 (Client.send 0 Client.initState [1]) [2])).2
        = some (Client.encrypt [2]) ∧
    (Client.tickCommand 0 (Client.send 0 (Client.send 0 Client.initState [1]) [2])).1.send_data
        = none :=
  c9_coalescing_amended Client.initState [1] [2] 0 0 0 (by decide) (by decide)

/-- The concrete manual-mode payload of the claim, with arbitrary bytes at
the wildcard positions 0, 1 and 4. -/
def manualPayload (b0 b1 b4 : Nat) : List Nat :=
  [b0, b1, 0x00, 0x01, b4, 0x05, 0x00, 0x0A, 0x00, 0x00, 0x00, 0x00, 0x00]

/-- The `Attribute` record the channel branch of `Device.attribute` builds
for a channel holding `v`. -/
def channelAttr (v : Nat) : Attribute :=
  { min := some 0, max := some 1000, step := some 50, value := some (.n v) }

/-- C2: decoding the manual-mode payload `[_, _, 0x00, 0x01, _, 0x05, 0x00,
0x0A, 0x00, 0x00, 0x00, 0x00, 0x00]` (any bytes at the wildcard positions,
any prior device state) makes the attribute surface report mode `"manual"`,
LED on, and channels 1-4 as 5, 10, 0, 0 (little-endian 16-bit values from
byte offsets 5‥13). -/
theorem c2_manual_decode (st : DeviceState) (b0 b1 b4 : Nat) :
    Device.attribute (Device.decode_update_packet st (manualPayload b0 b1 b4)).1 "mode"
      = .ok (some { options := some MODES, default := some (.s "manual") }) ∧
    Device.attribute (Device.decode_update_packet st (manualPayload b0 b1 b4)).1 "led_on_off"
      = .ok (some { is_on := some (.b true) }) ∧
    Device.attribute (Device.decode_update_packet st (manualPayload b0 b1 b4)).1 "channel_1"
      = .ok (some (channelAttr 5)) ∧
    Device.attribute (Device.decode_update_packet st (manualPayload b0 b1 b4)).1 "channel_2"
      = .ok (some (channelAttr 10)) ∧
    Device.attribute (Device.decode_update_packet st (manualPayload b0 b1 b4)).1 "channel_3"
      = .ok (some (channelAttr 0)) ∧
    Device.attribute (Device.decode_update_packet st (manualPayload b0 b1 b4)).1 "channel_4"
      = .ok (some (channelAttr 0)) := by
  have e1 : ((0x00 <<< 8) ||| (0x05 &&& 0xFF) : Nat) = 5 := by decide
  have e2 : ((0x00 <<< 8) ||| (0x0A &&& 0xFF) : Nat) = 10 := by decide
  have e3 : ((0x00 <<< 8) ||| (0x00 &&& 0xFF) : Nat) = 0 := by decide
  refine ⟨rfl, rfl, ?_, ?_, ?_, ?_⟩
  · calc Device.attribute (Device.decode_update_packet st (manualPayload b0 b1 b4)).1 "channel_1"
        = .ok (some (channelAttr ((0x00 <<< 8) ||| (0x05 &&& 0xFF)))) := rfl
      _ = .ok (some (channelAttr 5)) := by rw [e1]
  · calc Device.attribute (Device.decode_update_packet st (manualPayload b0 b1 b4)).1 "channel_2"
        = .ok (some (channelAttr ((0x00 <<< 8) ||| (0x0A &&& 0xFF)))) := rfl
      _ = .ok (some (channelAttr 10)) := by rw [e2]
  · calc Device.attribute (Device.decode_update_packet st (manualPayload b0 b1 b4)).1 "channel_3"
        = .ok (some (channelAttr ((0x00 <<< 8) ||| (0x00 &&& 0xFF)))) := rfl
      _ = .ok (some (channelAttr 0)) := by rw [e3]
  · calc Device.attribute (Device.decode_update_packet st (manualPayload b0 b1 b4)).1 "channel_4"
        = .ok (some (channelAttr ((0x00 <<< 8) ||| (0x00 &&& 0xFF)))) := rfl
      _ = .ok (some (channelAttr 0)) := by rw [e3]

/-- C8: for every payload of at least 13 bytes whose mode byte (byte 2) is
`0x01` (automatic), decoding forces all four reported channels to read back
as 0 through the attribute surface, regardless of bytes 5‥13 and of the
prior device state. -/
theorem c8_automatic_zero (st : DeviceState) (data : List Nat)
    (hlen : 13 ≤ data.length) (hmode : data.getD 2 0 = 0x01) :
    Device.attribute (Device.decode_update_packet st data).1 "channel_1"
      = .ok (some (channelAttr 0)) ∧
    Device.attribute (Device.decode_update_packet st data).1 "channel_2"
      = .ok (some (channelAttr 0)) ∧
    Device.attribute (Device.decode_update_packet st data).1 "channel_3"
      = .ok (some (channelAttr 0)) ∧
    Device.attribute (Device.decode_update_packet st data).1 "channel_4"
      = .ok (some (channelAttr 0)) := by
  have hnot : ¬ data.length < 13 := by omega
  unfold Device.decode_update_packet
  rw [if_neg hnot]
  simp only [hmode]
  simp [Device.attribute, dictGet, dictSet, strStartsWith, MODES, channelAttr]

/-- C8 witness: a 13-byte automatic-mode payload with garbage channel bytes
reads back all four channels as 0. -/
theorem c8_automatic_zero_witness :
    Device.attribute
        (Device.decode_update_packet (Device.init "00")
          [0, 0, 1, 0, 0, 9, 9, 9, 9, 9, 9, 9, 9]).1 "channel_1"
      = .ok (some (channelAttr 0)) ∧
    Device.attribute
        (Device.decode_update_packet (Device.init "00")
          [0, 0, 1, 0, 0, 9, 9, 9, 9, 9, 9, 9, 9]).1 "channel_2"
      = .ok (some (channelAttr 0)) ∧
    Device.attribute
        (Device.decode_update_packet (Device.init "00")
          [0, 0, 1, 0, 0, 9, 9, 9, 9, 9, 9, 9, 9]).1 "channel_3"
      = .ok (some (channelAttr 0)) ∧
    Device.attribute
        (Device.decode_update_packet (Device.init "00")
          [0, 0, 1, 0, 0, 9, 9, 9, 9, 9, 9, 9, 9]).1 "channel_4"
      = .ok (some (channelAttr 0)) :=
  c8_automatic_zero (Device.init "00") [0, 0, 1, 0, 0, 9, 9, 9, 9, 9, 9, 9, 9]
    (by decide) (by decide)

/-- C4 (counterexample): for the out-of-set option `"disco"`,
`select_option("mode", "disco")` does change the stored mode value — the
assignment `self.values[attr] = option` runs before the membership check —
so the claim that the stored mode is left unchanged is false. -/
theorem c4_invalid_mode_counterexample :
    dictGet (Device.select_option (Device.init "00") "mode" "disco").1.values "mode"
      ≠ dictGet (Device.init "00").values "mode" := by decide

/-- C4 (amended): for every option string outside the fixed mode set, no
command is handed to `Client.send`, but the stored mode value is
overwritten with the given option string (rather than left unchanged). -/
theorem c4_invalid_mode_amended (st : DeviceState) (option : String)
    (h : option ∉ MODES) :
    (Device.select_option st "mode" option).2 = none ∧
    dictGet (Device.select_option st "mode" option).1.values "mode"
      = some (.s option) := by
  unfold Device.select_option
  rw [if_neg (by simp [h])]
  exact ⟨rfl, dictGet_dictSet_same st.values "mode" (.s option)⟩

/-- C4 witness: the out-of-set option `"disco"` sends nothing and is stored
as the mode value. -/
theorem c4_invalid_mode_amended_witness :
    (Device.select_option (Device.init "00") "mode" "disco").2 = none ∧
    dictGet (Device.select_option (Device.init "00") "mode" "disco").1.values "mode"
      = some (.s "disco") :=
  c4_invalid_mode_amended (Device.init "00") "disco" (by decide)

/-- C5 (counterexample): `attribute("channel_9")` on a freshly initialised
device does not return none — the name passes the `startswith("channel_")`
test and the `values["channel_9"]` lookup raises a `KeyError` (modelled as
`Except.error ()`), so the call is not total over unrecognized names. -/
theorem c5_unknown_attr_counterexample :
    Device.attribute (Device.init "00") "channel_9" = .error () := rfl

/-- C5 (amended): for every name outside the fixed attribute set that does
not begin with `"channel_"`, `attribute` returns none; a name that begins
with `"channel_"` but has no entry in the values dict raises a `KeyError`
instead. -/
theorem c5_unknown_attr_amended :
    (∀ (st : DeviceState) (name : String), name ≠ "connection" →
      strStartsWith name "channel_" = false → name ≠ "mode" →
      name ≠ "led_on_off" → Device.attribute st name = .ok none) ∧
    (∀ (st : DeviceState) (name : String), name ≠ "connection" →
      strStartsWith name "channel_" = true → dictGet st.values name = none →
      Device.attribute st name = .error ()) := by
  constructor
  · intro st name h1 h2 h3 h4
    simp [Device.attribute, h1, h2, h3, h4]
  · intro st name h1 h2 h3
    simp [Device.attribute, h1, h2, h3]

/-- C5 witness: `"bogus"` returns none, while `"channel_9"` raises. -/
theorem c5_unknown_attr_amended_witness :
    Device.attribute (Device.init "00") "bogus" = .ok none ∧
    Device.attribute (Device.init "77") "channel_9" = .error () :=
  ⟨c5_unknown_attr_amended.1 (Device.init "00") "bogus"
      (by decide) (by decide) (by decide) (by decide),
   c5_unknown_attr_amended.2 (Device.init "77") "channel_9"
      (by decide) (by decide) (by decide)⟩

/-- C6 (counterexample): the claimed ordering fails on the success path of
`_connect`: the status callback reports `connected = true` at position 2 of
the trace, before the pre-flight keep-alive read (position 3) and the
initial request-state write (position 4). -/
theorem c6_status_order_counterexample :
    ¬ statusOnlyAfterHandshake connectTrace := by
  intro h
  obtain ⟨⟨j, hj, hget⟩, -⟩ := h 2 rfl
  interval_cases j <;> simp [connectTrace, CHAR_KEEPALIVE] at hget

/-- C6 (amended): on the success path of both `_connect` and the ping
loop's reconnect branch, every `connected = true` report happens after the
notification subscription and before the pre-flight keep-alive read (hence
before handshake completion), not after it. -/
theorem c6_status_order_amended :
    statusAfterSubscribe connectTrace ∧ statusAfterSubscribe reconnectTrace := by
  constructor <;>
  · intro i hi
    match i with
    | 0 => simp [connectTrace, reconnectTrace] at hi
    | 1 => simp [connectTrace, reconnectTrace, CHAR_NOTIFY] at hi
    | 2 => exact ⟨⟨1, by omega, rfl⟩, ⟨3, by omega, rfl⟩⟩
    | 3 => simp [connectTrace, reconnectTrace, CHAR_KEEPALIVE] at hi
    | 4 => simp [connectTrace, reconnectTrace] at hi
    | n + 5 => simp [connectTrace, reconnectTrace] at hi
